import Mathlib

/-
  Verification of the FlareChef recipe-synthesis core (src/main.py).

  The embedding models Python string primitives (strip, lower, title,
  split, substring containment, join) as executable functions on the
  character lists underlying Lean strings, then translates the core
  functions estimate_nutrition, craft_title, craft_description,
  craft_steps, compute_time and the /api/generate handler body.
  Python floats are modelled as exact rationals: every number the
  program manipulates has at most one decimal digit, so the decimal
  values in the spec are exact and binary-float representation error
  is below the rounding granularity everywhere it is observed.
-/

namespace FlareChef

/-- Whitespace class used by Python str.strip (ASCII part of str.isspace). -/
def pyIsSpace (c : Char) : Bool :=
  c = ' ' || c = '\t' || c = '\n' || c = '\r' || c = '\x0b' || c = '\x0c'

/-- Characters of the result of Python str.strip: drop whitespace from both ends. -/
def stripChars (cs : List Char) : List Char :=
  ((cs.dropWhile pyIsSpace).reverse.dropWhile pyIsSpace).reverse

/-- Python str.strip. -/
def pyStrip (s : String) : String :=
  String.mk (stripChars s.data)

/-- Python str.lower (ASCII). -/
def pyLower (s : String) : String :=
  String.mk (s.data.map Char.toLower)

/-- Characters of Python str.title: uppercase every letter that follows a
non-letter, lowercase every letter that follows a letter.  The Bool argument
records whether the previous character was a letter. -/
def titleMapChars : Bool → List Char → List Char
  | _, [] => []
  | prevAlpha, c :: cs =>
      (if c.isAlpha then (if prevAlpha then c.toLower else c.toUpper) else c)
        :: titleMapChars c.isAlpha cs

/-- Python str.title. -/
def pyTitle (s : String) : String :=
  String.mk (titleMapChars false s.data)

/-- Characters of Python s.split(sep) for a one-character separator: the
accumulator holds the current segment reversed. -/
def splitCommaChars : List Char → List Char → List (List Char)
  | acc, [] => [acc.reverse]
  | acc, c :: cs =>
      if c = ',' then acc.reverse :: splitCommaChars [] cs
      else splitCommaChars (c :: acc) cs

/-- Python s.split of a raw string on a comma. -/
def pySplitComma (s : String) : List String :=
  (splitCommaChars [] s.data).map String.mk

/-- Does the first list begin the second one (character-wise)? -/
def beginsWith : List Char → List Char → Bool
  | [], _ => true
  | _ :: _, [] => false
  | a :: as, b :: bs => a = b && beginsWith as bs

/-- Substring containment on character lists (needle first). -/
def hasSub (needle : List Char) : List Char → Bool
  | [] => beginsWith needle []
  | c :: cs => beginsWith needle (c :: cs) || hasSub needle cs

/-- Python membership test needle in hay on strings. -/
def pyContains (hay needle : String) : Bool :=
  hasSub needle.data hay.data

/-- Python sep.join on a list of strings. -/
def pyJoin (sep : String) : List String → String
  | [] => ""
  | [x] => x
  | x :: y :: rest => x ++ sep ++ pyJoin sep (y :: rest)

/-- CALORIE_HINTS from src/main.py lines 51-68: an ordered association list
(keyword, (calories, protein, carbs, fat)), kept in declaration order because
the first matching key wins. -/
def CALORIE_HINTS : List (String × ℚ × ℚ × ℚ × ℚ) :=
  [ ("chicken", (165, 31, 0, 3.6)),
    ("beef", (250, 26, 0, 15)),
    ("pork", (242, 27, 0, 14)),
    ("salmon", (208, 20, 0, 13)),
    ("egg", (78, 6, 0.6, 5)),
    ("rice", (206, 4.3, 45, 0.4)),
    ("pasta", (221, 8, 43, 1.3)),
    ("potato", (161, 4.3, 37, 0.2)),
    ("beans", (155, 10, 28, 0.5)),
    ("tofu", (144, 17, 3, 9)),
    ("cheese", (113, 7, 0.4, 9.3)),
    ("milk", (103, 8, 12, 2.4)),
    ("olive oil", (119, 0, 0, 13.5)),
    ("butter", (102, 0.1, 0, 11.5)),
    ("bread", (79, 3, 15, 1)),
    ("avocado", (160, 2, 9, 15)) ]

/-- FALLBACK_IMAGE from src/main.py line 70. -/
def FALLBACK_IMAGE : String :=
  "https://images.unsplash.com/photo-1504674900247-0877df9cc836?q=80&w=1600&auto=format&fit=crop"

/-- Python int() applied to a float total: truncation toward zero. -/
def truncToInt (q : ℚ) : ℤ :=
  if 0 ≤ q then ⌊q⌋ else ⌈q⌉

/-- Python round to the nearest integer: round half to even. -/
def pyRoundInt (q : ℚ) : ℤ :=
  if q - ⌊q⌋ < 1/2 then ⌊q⌋
  else if 1/2 < q - ⌊q⌋ then ⌊q⌋ + 1
  else if ⌊q⌋ % 2 = 0 then ⌊q⌋ else ⌊q⌋ + 1

/-- Python round(x, 1): round to one decimal place. -/
def round1 (q : ℚ) : ℚ :=
  (pyRoundInt (q * 10) : ℚ) / 10

/-- NutritionModel from src/main.py lines 27-31. -/
structure NutritionModel where
  calories : ℤ
  protein : ℚ
  carbs : ℚ
  fat : ℚ
deriving DecidableEq, Repr

/-- The nutrition contribution of a single ingredient, src/main.py lines 76-90:
strip and lowercase the ingredient, scan CALORIE_HINTS in declaration order for
the first key contained in it as a substring, fall back to (40, 0, 5, 0). -/
def contribOf (raw : String) : ℚ × ℚ × ℚ × ℚ :=
  match CALORIE_HINTS.find? (fun kv => pyContains (pyLower (pyStrip raw)) kv.1) with
  | some kv => kv.2
  | none => (40, 0, 5, 0)

/-- One step of the accumulation loop of estimate_nutrition: add the four
components of the contribution of one ingredient to the running totals. -/
def addContrib (t : ℚ × ℚ × ℚ × ℚ) (raw : String) : ℚ × ℚ × ℚ × ℚ :=
  (t.1 + (contribOf raw).1, t.2.1 + (contribOf raw).2.1,
   t.2.2.1 + (contribOf raw).2.2.1, t.2.2.2 + (contribOf raw).2.2.2)

/-- The four running totals of estimate_nutrition, src/main.py lines 74-90. -/
def nutritionTotals (ings : List String) : ℚ × ℚ × ℚ × ℚ :=
  ings.foldl addContrib (0, 0, 0, 0)

/-- estimate_nutrition from src/main.py lines 73-96: total the per-ingredient
contributions, truncate the calorie total to an integer and round the other
three totals to one decimal place. -/
def estimate_nutrition (ings : List String) : NutritionModel :=
  { calories := truncToInt (nutritionTotals ings).1
    protein := round1 (nutritionTotals ings).2.1
    carbs := round1 (nutritionTotals ings).2.2.1
    fat := round1 (nutritionTotals ings).2.2.2 }

/-- The list of stripped, non-empty ingredients used by craft_title and
craft_description (the Python comprehension on src/main.py lines 100 and 109). -/
def nonEmptyStripped (ings : List String) : List String :=
  (ings.map pyStrip).filter (fun i => i ≠ "")

/-- The title-cased core ingredient list of craft_title, src/main.py line 100. -/
def titleCore (ings : List String) : List String :=
  (nonEmptyStripped ings).map pyTitle

/-- craft_title from src/main.py lines 99-105. -/
def craft_title (ings : List String) : String :=
  match titleCore ings with
  | [] => "FlareChef Creation"
  | [x] => "Ignited " ++ x ++ " Delight"
  | rest => "Flame-Kissed " ++ pyJoin " & " (rest.take 2)
      ++ (if rest.length > 2 then " Medley" else "")

/-- craft_description from src/main.py lines 108-110. -/
def craft_description (ings : List String) : String :=
  "A warm, glowing recipe that turns " ++ pyJoin ", " (nonEmptyStripped ings)
    ++ " into a cozy, restaurant-worthy dish."

/-- craft_steps from src/main.py lines 113-121. -/
def craft_steps (ings : List String) : List String :=
  [ "Preheat a skillet until it softly shimmers like a flame.",
    "Add " ++ (match ings with
               | [] => "ingredients"
               | i :: _ => pyLower (pyStrip i))
      ++ " with a drizzle of oil; sear until lightly caramelized.",
    "Fold in remaining ingredients and season with salt, pepper, and a hint of heat.",
    "Simmer until flavors meld and textures are tender.",
    "Finish with fresh herbs or citrus and serve warm." ]

/-- compute_time from src/main.py lines 124-126. -/
def compute_time (ings : List String) : ℕ :=
  min (max (10 + 5 * ings.length) 15) 75

/-- RecipeModel from src/main.py lines 33-40. -/
structure RecipeModel where
  title : String
  description : String
  ingredients : List String
  steps : List String
  time_minutes : ℕ
  nutrition : NutritionModel
  image_url : Option String
deriving DecidableEq, Repr

/-- The ingredient parser of the /api/generate handler, src/main.py line 161:
split the raw string on commas, strip each segment, drop empty segments. -/
def parseIngredients (raw : String) : List String :=
  ((pySplitComma raw).map pyStrip).filter (fun i => i ≠ "")

/-- The single core error kind: the empty-ingredient rejection of
src/main.py lines 162-163 (HTTP 400). -/
inductive CoreError
  | validationError
deriving DecidableEq, Repr

/-- The core synthesize operation: the body of generate_recipe,
src/main.py lines 159-183, after request-model validation. -/
def synthesize (raw : String) : Except CoreError RecipeModel :=
  let ingredients := parseIngredients raw
  if ingredients = [] then .error .validationError
  else
    let query0 := pyJoin "+" (ingredients.take 3)
    let query := if query0 = "" then "food" else query0
    let image_url := "https://source.unsplash.com/featured/?" ++ query
    .ok
      { title := craft_title ingredients
        description := craft_description ingredients
        ingredients := ingredients
        steps := craft_steps ingredients
        time_minutes := compute_time ingredients
        nutrition := estimate_nutrition ingredients
        image_url := some (if image_url = "" then FALLBACK_IMAGE else image_url) }

/-- Request-level error taxonomy of the /api/generate endpoint: pydantic
model validation (HTTP 422) versus the handler rejection (HTTP 400). -/
inductive RequestError
  | modelValidation
  | validationError
deriving DecidableEq, Repr

/-- The /api/generate endpoint including request-model validation: the
GenerateRequest field (src/main.py lines 24-25) requires min_length 2 on the
raw string, checked by pydantic before the handler body runs. -/
def generate_recipe (raw : String) : Except RequestError RecipeModel :=
  if raw.length < 2 then .error .modelValidation
  else
    match synthesize raw with
    | .error _ => .error .validationError
    | .ok r => .ok r

/-- Evaluation helper: round1 at a rational whose tenfold is the integer n. -/
lemma round1_eq_of_mul_ten (q : ℚ) (n : ℤ) (h : q * 10 = (n : ℚ)) :
    round1 q = (n : ℚ) / 10 := by
  unfold round1 pyRoundInt
  rw [h, Int.floor_intCast]
  rw [if_pos]
  rw [sub_self]
  norm_num

/-- Evaluation helper: truncation at an integer is that integer. -/
lemma truncToInt_intCast (n : ℤ) : truncToInt ((n : ℚ)) = n := by
  unfold truncToInt
  split
  · exact Int.floor_intCast n
  · exact Int.ceil_intCast n

/-- The accumulation loop computes, in each component, the initial value plus
the sum of the per-ingredient contributions. -/
lemma foldl_addContrib (l : List String) : ∀ init : ℚ × ℚ × ℚ × ℚ,
    l.foldl addContrib init =
      (init.1 + (l.map (fun r => (contribOf r).1)).sum,
       init.2.1 + (l.map (fun r => (contribOf r).2.1)).sum,
       init.2.2.1 + (l.map (fun r => (contribOf r).2.2.1)).sum,
       init.2.2.2 + (l.map (fun r => (contribOf r).2.2.2)).sum) := by
  induction l with
  | nil => intro init; simp
  | cons x xs ih =>
      intro init
      simp only [List.foldl_cons, List.map_cons, List.sum_cons, ih, addContrib]
      exact Prod.ext (by ring) (Prod.ext (by ring) (Prod.ext (by ring) (by ring)))

/-- The four running totals are the component-wise sums of the contributions. -/
lemma nutritionTotals_eq (l : List String) :
    nutritionTotals l =
      ((l.map (fun r => (contribOf r).1)).sum,
       (l.map (fun r => (contribOf r).2.1)).sum,
       (l.map (fun r => (contribOf r).2.2.1)).sum,
       (l.map (fun r => (contribOf r).2.2.2)).sum) := by
  have h := foldl_addContrib l (0, 0, 0, 0)
  simpa [nutritionTotals] using h

/-- estimate_nutrition truncates and rounds the component-wise sums of the
per-ingredient contributions. -/
lemma estimate_nutrition_eq (l : List String) :
    estimate_nutrition l =
      { calories := truncToInt ((l.map (fun r => (contribOf r).1)).sum)
        protein := round1 ((l.map (fun r => (contribOf r).2.1)).sum)
        carbs := round1 ((l.map (fun r => (contribOf r).2.2.1)).sum)
        fat := round1 ((l.map (fun r => (contribOf r).2.2.2)).sum) } := by
  simp [estimate_nutrition, nutritionTotals_eq]

/-- Every entry of the lexicon has four non-negative components. -/
lemma hints_comp_nonneg : ∀ kv ∈ CALORIE_HINTS,
    0 ≤ kv.2.1 ∧ 0 ≤ kv.2.2.1 ∧ 0 ≤ kv.2.2.2.1 ∧ 0 ≤ kv.2.2.2.2 := by
  intro kv hkv
  fin_cases hkv <;> norm_num

/-- Every per-ingredient contribution has four non-negative components. -/
lemma contrib_comp_nonneg (raw : String) :
    0 ≤ (contribOf raw).1 ∧ 0 ≤ (contribOf raw).2.1 ∧
    0 ≤ (contribOf raw).2.2.1 ∧ 0 ≤ (contribOf raw).2.2.2 := by
  unfold contribOf
  split
  · next kv hkv => exact hints_comp_nonneg kv (List.mem_of_find?_eq_some hkv)
  · norm_num

/-- Rounding half to even preserves non-negativity. -/
lemma pyRoundInt_nonneg (q : ℚ) (h : 0 ≤ q) : 0 ≤ pyRoundInt q := by
  have h0 : (0 : ℤ) ≤ ⌊q⌋ := Int.floor_nonneg.mpr h
  unfold pyRoundInt
  split_ifs <;> omega

/-- Rounding to one decimal place preserves non-negativity. -/
lemma round1_nonneg (q : ℚ) (h : 0 ≤ q) : 0 ≤ round1 q := by
  have h0 : (0 : ℤ) ≤ pyRoundInt (q * 10) := pyRoundInt_nonneg _ (by positivity)
  unfold round1
  have h1 : (0 : ℚ) ≤ (pyRoundInt (q * 10) : ℚ) := by exact_mod_cast h0
  exact div_nonneg h1 (by norm_num)

/-- Truncation toward zero preserves non-negativity. -/
lemma truncToInt_nonneg (q : ℚ) (h : 0 ≤ q) : 0 ≤ truncToInt q := by
  unfold truncToInt
  rw [if_pos h]
  exact Int.floor_nonneg.mpr h

/-- find? returns the element at the first index whose predicate holds. -/
lemma find?_first {α : Type} (p : α → Bool) :
    ∀ (l : List α) (i : ℕ) (h : i < l.length),
      p (l.get ⟨i, h⟩) = true →
      (∀ j (hj : j < l.length), j < i → p (l.get ⟨j, hj⟩) = false) →
      l.find? p = some (l.get ⟨i, h⟩) := by
  intro l
  induction l with
  | nil => intro i h; exact absurd h (Nat.not_lt_zero i)
  | cons x xs ih =>
      intro i h hp hmin
      cases i with
      | zero => exact List.find?_cons_of_pos xs hp
      | succ i =>
          have hx : p x = false :=
            hmin 0 (Nat.succ_pos xs.length) (Nat.succ_pos i)
          rw [List.find?_cons_of_neg xs (by simp [hx])]
          exact ih i (Nat.lt_of_succ_lt_succ h) hp
            (fun j hj hji =>
              hmin (j + 1) (Nat.succ_lt_succ hj) (Nat.succ_lt_succ hji))

/-- Every character of every segment of a split comes from the accumulator or
from the remaining input. -/
lemma mem_splitCommaChars :
    ∀ (cs acc seg : List Char), seg ∈ splitCommaChars acc cs →
      ∀ c ∈ seg, c ∈ acc ∨ c ∈ cs := by
  intro cs
  induction cs with
  | nil =>
      intro acc seg hseg c hc
      simp only [splitCommaChars, List.mem_singleton] at hseg
      subst hseg
      exact Or.inl (List.mem_reverse.mp hc)
  | cons c0 cs ih =>
      intro acc seg hseg c hc
      by_cases h0 : c0 = ','
      · rw [splitCommaChars, if_pos h0] at hseg
        rcases List.mem_cons.mp hseg with h | h
        · subst h
          exact Or.inl (List.mem_reverse.mp hc)
        · rcases ih [] seg h c hc with h2 | h2
          · exact absurd h2 (List.not_mem_nil c)
          · exact Or.inr (List.mem_cons_of_mem c0 h2)
      · rw [splitCommaChars, if_neg h0] at hseg
        rcases ih (c0 :: acc) seg hseg c hc with h2 | h2
        · rcases List.mem_cons.mp h2 with h3 | h3
          · exact Or.inr (h3 ▸ List.mem_cons_self c0 cs)
          · exact Or.inl h3
        · exact Or.inr (List.mem_cons_of_mem c0 h2)

/-- Stripping a list of whitespace characters leaves nothing. -/
lemma stripChars_eq_nil_of_space (cs : List Char)
    (h : ∀ c ∈ cs, pyIsSpace c = true) : stripChars cs = [] := by
  unfold stripChars
  rw [List.dropWhile_eq_nil_iff.mpr h]
  simp

/-- A string all of whose characters are whitespace strips to the empty string. -/
lemma pyStrip_eq_empty_of_space (s : String)
    (h : ∀ c ∈ s.data, pyIsSpace c = true) : pyStrip s = "" := by
  unfold pyStrip
  rw [stripChars_eq_nil_of_space _ h]

/-- A string whose character list is empty is the empty string. -/
lemma eq_empty_of_data_nil (s : String) (h : s.data = []) : s = "" := by
  cases s with
  | mk d => exact (congrArg String.mk h).trans rfl

/-- The character list of an appended string. -/
lemma string_data_append (a b : String) : (a ++ b).data = a.data ++ b.data := by
  cases a with
  | mk da =>
      cases b with
      | mk db => rfl

/-- Appending to a non-empty string on the left stays non-empty. -/
lemma append_ne_empty_left (a b : String) (h : a ≠ "") : a ++ b ≠ "" := by
  intro e
  apply h
  apply eq_empty_of_data_nil
  have hd : (a ++ b).data = [] := by rw [e]
  rw [string_data_append] at hd
  exact (List.append_eq_nil.mp hd).1

/-- Joining a non-empty list of non-empty strings is non-empty. -/
lemma pyJoin_ne_empty (sep : String) :
    ∀ l : List String, l ≠ [] → (∀ x ∈ l, x ≠ "") → pyJoin sep l ≠ "" := by
  intro l
  match l with
  | [] => intro hl _; exact absurd rfl hl
  | [x] =>
      intro _ h
      simpa [pyJoin] using h x (List.mem_singleton.mpr rfl)
  | x :: y :: rest =>
      intro _ h
      show x ++ sep ++ pyJoin sep (y :: rest) ≠ ""
      exact append_ne_empty_left _ _
        (append_ne_empty_left _ _ (h x (List.mem_cons_self x _)))

/-- Every parsed ingredient is a non-empty string. -/
lemma parse_mem_ne_empty (raw : String) :
    ∀ x ∈ parseIngredients raw, x ≠ "" := by
  intro x hx
  unfold parseIngredients at hx
  exact of_decide_eq_true (List.mem_filter.mp hx).2

/-- If every split segment strips to the empty string, the parse is empty. -/
lemma parse_nil_of_trim_empty (raw : String)
    (h : ∀ seg ∈ pySplitComma raw, pyStrip seg = "") :
    parseIngredients raw = [] := by
  unfold parseIngredients
  apply List.filter_eq_nil_iff.mpr
  intro a ha
  rcases List.mem_map.mp ha with ⟨seg, hseg, rfl⟩
  simp [h seg hseg]

/-- A whitespace-only raw string (the empty string included) parses to nothing. -/
lemma parse_nil_of_whitespace (raw : String)
    (h : ∀ c ∈ raw.data, pyIsSpace c = true) :
    parseIngredients raw = [] := by
  apply parse_nil_of_trim_empty
  intro seg hseg
  rcases List.mem_map.mp hseg with ⟨sl, hsl, rfl⟩
  apply pyStrip_eq_empty_of_space
  intro c hc
  rcases mem_splitCommaChars raw.data [] sl hsl c hc with h2 | h2
  · exact absurd h2 (List.not_mem_nil c)
  · exact h c h2

/-- The assembled success output of the /api/generate handler. -/
def assembleRecipe (ings : List String) : RecipeModel :=
  { title := craft_title ings
    description := craft_description ings
    ingredients := ings
    steps := craft_steps ings
    time_minutes := compute_time ings
    nutrition := estimate_nutrition ings
    image_url := some
      (if ("https://source.unsplash.com/featured/?" ++
            (if pyJoin "+" (ings.take 3) = "" then "food"
             else pyJoin "+" (ings.take 3))) = ""
       then FALLBACK_IMAGE
       else "https://source.unsplash.com/featured/?" ++
            (if pyJoin "+" (ings.take 3) = "" then "food"
             else pyJoin "+" (ings.take 3))) }

/-- synthesize either rejects an empty parse or assembles the recipe. -/
lemma synthesize_eq (raw : String) :
    synthesize raw =
      if parseIngredients raw = [] then Except.error CoreError.validationError
      else Except.ok (assembleRecipe (parseIngredients raw)) := rfl

/-- Concrete nutrition totals for the pair chicken and rice. -/
lemma est_chicken_rice : estimate_nutrition ["chicken", "rice"] = ⟨371, 35.3, 45, 4⟩ := by
  have ht : nutritionTotals ["chicken", "rice"] =
      (0 + 165 + 206, 0 + 31 + 4.3, 0 + 0 + 45, 0 + 3.6 + 0.4) := rfl
  have h1 : truncToInt ((165 : ℚ) + 206) = 371 := by
    rw [show ((165 : ℚ) + 206) = ((371 : ℤ) : ℚ) by norm_num]
    exact truncToInt_intCast 371
  have h2 : round1 ((31 : ℚ) + 4.3) = 35.3 := by
    rw [round1_eq_of_mul_ten _ 353 (by norm_num)]
    norm_num
  have h3 : round1 ((45 : ℚ)) = 45 := by
    rw [round1_eq_of_mul_ten _ 450 (by norm_num)]
    norm_num
  have h4 : round1 ((3.6 : ℚ) + 0.4) = 4 := by
    rw [round1_eq_of_mul_ten _ 40 (by norm_num)]
    norm_num
  simp [estimate_nutrition, ht, h1, h2, h3, h4]

/-- Concrete nutrition totals for the unmatched ingredient kale. -/
lemma est_kale : estimate_nutrition ["kale"] = ⟨40, 0, 5, 0⟩ := by
  have ht : nutritionTotals ["kale"] = (0 + 40, 0 + 0, 0 + 5, 0 + 0) := rfl
  have h1 : truncToInt ((40 : ℚ)) = 40 := by
    rw [show ((40 : ℚ)) = ((40 : ℤ) : ℚ) by norm_num]
    exact truncToInt_intCast 40
  have h2 : round1 ((0 : ℚ)) = 0 := by
    rw [round1_eq_of_mul_ten _ 0 (by norm_num)]
    norm_num
  have h3 : round1 ((5 : ℚ)) = 5 := by
    rw [round1_eq_of_mul_ten _ 50 (by norm_num)]
    norm_num
  simp [estimate_nutrition, ht, h1, h2, h3]

/-- The recipe synthesized from the raw input kale, written out in full. -/
def kaleRecipe : RecipeModel :=
  { title := "Ignited Kale Delight"
    description := "A warm, glowing recipe that turns kale into a cozy, restaurant-worthy dish."
    ingredients := ["kale"]
    steps :=
      [ "Preheat a skillet until it softly shimmers like a flame.",
        "Add kale with a drizzle of oil; sear until lightly caramelized.",
        "Fold in remaining ingredients and season with salt, pepper, and a hint of heat.",
        "Simmer until flavors meld and textures are tender.",
        "Finish with fresh herbs or citrus and serve warm." ]
    time_minutes := 15
    nutrition := ⟨40, 0, 5, 0⟩
    image_url := some "https://source.unsplash.com/featured/?kale" }

/-- The recipe synthesized from the raw input chicken, rice, written out in full. -/
def chickenRiceRecipe : RecipeModel :=
  { title := "Flame-Kissed Chicken & Rice"
    description := "A warm, glowing recipe that turns chicken, rice into a cozy, restaurant-worthy dish."
    ingredients := ["chicken", "rice"]
    steps :=
      [ "Preheat a skillet until it softly shimmers like a flame.",
        "Add chicken with a drizzle of oil; sear until lightly caramelized.",
        "Fold in remaining ingredients and season with salt, pepper, and a hint of heat.",
        "Simmer until flavors meld and textures are tender.",
        "Finish with fresh herbs or citrus and serve warm." ]
    time_minutes := 20
    nutrition := ⟨371, 35.3, 45, 4⟩
    image_url := some "https://source.unsplash.com/featured/?chicken+rice" }

/-- Evaluating synthesize on the input kale. -/
lemma synth_kale : synthesize "kale" = Except.ok kaleRecipe := by
  rw [synthesize_eq, if_neg (by decide)]
  show Except.ok (assembleRecipe ["kale"]) = _
  unfold assembleRecipe kaleRecipe
  rw [est_kale]
  rfl

/-- Evaluating synthesize on the input chicken, rice. -/
lemma synth_chicken_rice : synthesize "chicken, rice" = Except.ok chickenRiceRecipe := by
  rw [synthesize_eq, if_neg (by decide)]
  show Except.ok (assembleRecipe ["chicken", "rice"]) = _
  unfold assembleRecipe chickenRiceRecipe
  rw [est_chicken_rice]
  rfl

/-- Two strings with equal character lists are equal. -/
lemma string_ext (a b : String) (h : a.data = b.data) : a = b := by
  cases a with
  | mk da =>
      cases b with
      | mk db => exact congrArg String.mk h

/-- Claim C1: for every ingredient string, the estimator lowercases the
stripped ingredient and attributes the contribution of the first lexicon key,
in declaration order, that is a substring of it; if no key matches it
attributes the fallback contribution (40, 0, 5, 0).  In particular the
ingredient "chicken rice bowl" also contains "rice", yet receives exactly the
"chicken" contribution and not the "rice" one. -/
theorem claim_C1 :
    (∀ (raw : String) (i : ℕ) (h : i < CALORIE_HINTS.length),
        pyContains (pyLower (pyStrip raw)) (CALORIE_HINTS.get ⟨i, h⟩).1 = true →
        (∀ j (hj : j < CALORIE_HINTS.length), j < i →
          pyContains (pyLower (pyStrip raw)) (CALORIE_HINTS.get ⟨j, hj⟩).1 = false) →
        contribOf raw = (CALORIE_HINTS.get ⟨i, h⟩).2)
  ∧ (∀ raw : String,
        (∀ kv ∈ CALORIE_HINTS, pyContains (pyLower (pyStrip raw)) kv.1 = false) →
        contribOf raw = (40, 0, 5, 0))
  ∧ pyContains (pyLower (pyStrip "chicken rice bowl")) "rice" = true
  ∧ contribOf "chicken rice bowl" = (165, 31, 0, 3.6)
  ∧ contribOf "chicken rice bowl" ≠ (206, 4.3, 45, 0.4) := by
  have h4 : contribOf "chicken rice bowl" = (165, 31, 0, 3.6) := rfl
  refine ⟨?_, ?_, by decide, h4, ?_⟩
  · intro raw i h hp hmin
    unfold contribOf
    rw [find?_first _ CALORIE_HINTS i h hp (fun j hj hji => hmin j hj hji)]
  · intro raw hnone
    unfold contribOf
    rw [List.find?_eq_none.mpr (fun kv hkv => by simp [hnone kv hkv])]
  · rw [h4]
    intro he
    have h5 := congrArg Prod.fst he
    norm_num at h5

/-- Witness for claim C1: the first lexicon key wins at a concrete input. -/
theorem claim_C1_witness : contribOf "chicken breast" = (165, 31, 0, 3.6) := by
  have h16 : 0 < CALORIE_HINTS.length := by decide
  have h := claim_C1.1 "chicken breast" 0 h16
    (by exact (by decide :
      pyContains (pyLower (pyStrip "chicken breast")) "chicken" = true))
    (fun j hj hj0 => absurd hj0 (Nat.not_lt_zero j))
  exact h.trans rfl

/-- Claim C2: every raw input that is whitespace-only (the empty string
included) or whose comma-split segments all strip to the empty string makes
synthesize fail with the validation error, and that is the only core error:
every input with a non-empty parse succeeds. -/
theorem claim_C2 : ∀ raw : String,
    ((∀ c ∈ raw.data, pyIsSpace c = true) →
        synthesize raw = Except.error CoreError.validationError)
  ∧ ((∀ seg ∈ pySplitComma raw, pyStrip seg = "") →
        synthesize raw = Except.error CoreError.validationError)
  ∧ (parseIngredients raw ≠ [] → ∃ r, synthesize raw = Except.ok r) := by
  intro raw
  refine ⟨fun h => ?_, fun h => ?_, fun h => ?_⟩
  · rw [synthesize_eq, if_pos (parse_nil_of_whitespace raw h)]
  · rw [synthesize_eq, if_pos (parse_nil_of_trim_empty raw h)]
  · exact ⟨assembleRecipe (parseIngredients raw), by rw [synthesize_eq, if_neg h]⟩

/-- Witness for claim C2 at the inputs named by the spec. -/
theorem claim_C2_witness :
    synthesize "" = Except.error CoreError.validationError
  ∧ synthesize " , ," = Except.error CoreError.validationError
  ∧ ∃ r, synthesize "kale" = Except.ok r :=
  ⟨(claim_C2 "").1 (by decide), (claim_C2 " , ,").2.1 (by decide),
   (claim_C2 "kale").2.2 (by decide)⟩

/-- Claim C3: time_minutes is clamp(10 + 5n, 15, 75) in the ingredient count
n, hence always lies in [15, 75] and is non-decreasing in n; n = 1 gives 15,
n = 3 gives 25 and n = 20 gives 75. -/
theorem claim_C3 : ∀ ings : List String,
    compute_time ings = min (max (10 + 5 * ings.length) 15) 75
  ∧ 15 ≤ compute_time ings
  ∧ compute_time ings ≤ 75
  ∧ (∀ l2 : List String, ings.length ≤ l2.length →
        compute_time ings ≤ compute_time l2)
  ∧ compute_time (List.replicate 1 "x") = 15
  ∧ compute_time (List.replicate 3 "x") = 25
  ∧ compute_time (List.replicate 20 "x") = 75 := by
  intro ings
  refine ⟨rfl, ?_, ?_, ?_, by decide, by decide, by decide⟩
  · exact le_min (le_max_right _ _) (by norm_num)
  · exact min_le_right _ _
  · intro l2 hl
    exact min_le_min (max_le_max (by omega) le_rfl) le_rfl

/-- Witness for claim C3: monotonicity at a concrete pair of lists. -/
theorem claim_C3_witness : compute_time ["a"] ≤ compute_time ["a", "b"] :=
  (claim_C3 ["a"]).2.2.2.1 ["a", "b"] (by decide)

/-- Claim C4: the title generator title-cases each stripped non-empty
ingredient; with none left it returns the fixed placeholder, with one it
returns Ignited-Delight, with two Flame-Kissed-First-and-Second, and with
more than two the same two-name form with the Medley suffix, never naming
the third and later ingredients. -/
theorem claim_C4 : ∀ ings : List String,
    (titleCore ings = [] → craft_title ings = "FlareChef Creation")
  ∧ (∀ x, titleCore ings = [x] →
        craft_title ings = "Ignited " ++ x ++ " Delight")
  ∧ (∀ x y, titleCore ings = [x, y] →
        craft_title ings = "Flame-Kissed " ++ x ++ " & " ++ y)
  ∧ (∀ x y z rest, titleCore ings = x :: y :: z :: rest →
        craft_title ings = "Flame-Kissed " ++ x ++ " & " ++ y ++ " Medley") := by
  intro ings
  refine ⟨fun h => ?_, fun x h => ?_, fun x y h => ?_, fun x y z rest h => ?_⟩
  · unfold craft_title
    rw [h]
  · unfold craft_title
    rw [h]
  · unfold craft_title
    rw [h]
    show "Flame-Kissed " ++ pyJoin " & " (List.take 2 [x, y])
        ++ (if List.length [x, y] > 2 then " Medley" else "") = _
    rw [if_neg (by simp only [List.length_cons, List.length_nil]; omega)]
    apply string_ext
    simp [string_data_append, pyJoin]
  · unfold craft_title
    rw [h]
    show "Flame-Kissed " ++ pyJoin " & " (List.take 2 (x :: y :: z :: rest))
        ++ (if List.length (x :: y :: z :: rest) > 2 then " Medley" else "") = _
    rw [if_pos (by simp only [List.length_cons]; omega)]
    apply string_ext
    simp [string_data_append, pyJoin]

/-- Witness for claim C4: the four-ingredient example of the spec. -/
theorem claim_C4_witness :
    craft_title ["chicken", "rice", "beans", "egg"] =
      "Flame-Kissed Chicken & Rice Medley" := by
  have h := (claim_C4 ["chicken", "rice", "beans", "egg"]).2.2.2
    "Chicken" "Rice" "Beans" ["Egg"] (by decide)
  exact h.trans (by decide)

/-- Claim C5: the input chicken-comma-rice yields calories 371, protein 35.3,
carbs 45.0, fat 4.0, the title Flame-Kissed Chicken and Rice and 20 minutes;
the unmatched input kale yields the fallback nutrition and the Ignited Kale
Delight title. -/
theorem claim_C5 :
    (synthesize "chicken, rice").toOption.map
        (fun r => (r.nutrition, r.title, r.time_minutes)) =
      some (⟨371, 35.3, 45, 4⟩, "Flame-Kissed Chicken & Rice", 20)
  ∧ (synthesize "kale").toOption.map (fun r => (r.nutrition, r.title)) =
      some (⟨40, 0, 5, 0⟩, "Ignited Kale Delight") := by
  constructor
  · rw [synth_chicken_rice]
    rfl
  · rw [synth_kale]
    rfl

/-- Claim C6: the nutrition estimate is invariant under any permutation of
the ingredient list, while the title and the step text do depend on the
order. -/
theorem claim_C6 :
    (∀ l1 l2 : List String, l1.Perm l2 →
        estimate_nutrition l1 = estimate_nutrition l2)
  ∧ craft_title ["chicken", "rice"] ≠ craft_title ["rice", "chicken"]
  ∧ craft_steps ["chicken", "rice"] ≠ craft_steps ["rice", "chicken"] := by
  refine ⟨?_, by decide, by decide⟩
  intro l1 l2 hp
  have h1 := (hp.map (fun r => (contribOf r).1)).sum_eq
  have h2 := (hp.map (fun r => (contribOf r).2.1)).sum_eq
  have h3 := (hp.map (fun r => (contribOf r).2.2.1)).sum_eq
  have h4 := (hp.map (fun r => (contribOf r).2.2.2)).sum_eq
  rw [estimate_nutrition_eq, estimate_nutrition_eq, h1, h2, h3, h4]

/-- Witness for claim C6: invariance at a concrete transposition. -/
theorem claim_C6_witness :
    estimate_nutrition ["chicken", "rice"] = estimate_nutrition ["rice", "chicken"] :=
  claim_C6.1 ["chicken", "rice"] ["rice", "chicken"]
    (List.Perm.swap "rice" "chicken" [])

/-- Claim C7: all four components of the nutrition estimate are non-negative,
and the calories are the truncation, and protein, carbs and fat the
one-decimal rounding, of the final component-wise sums, applied once at the
end rather than per ingredient. -/
theorem claim_C7 : ∀ l : List String,
    0 ≤ (estimate_nutrition l).calories
  ∧ 0 ≤ (estimate_nutrition l).protein
  ∧ 0 ≤ (estimate_nutrition l).carbs
  ∧ 0 ≤ (estimate_nutrition l).fat
  ∧ (estimate_nutrition l).calories =
      truncToInt ((l.map (fun r => (contribOf r).1)).sum)
  ∧ (estimate_nutrition l).protein =
      round1 ((l.map (fun r => (contribOf r).2.1)).sum)
  ∧ (estimate_nutrition l).carbs =
      round1 ((l.map (fun r => (contribOf r).2.2.1)).sum)
  ∧ (estimate_nutrition l).fat =
      round1 ((l.map (fun r => (contribOf r).2.2.2)).sum) := by
  intro l
  have hs1 : 0 ≤ (l.map (fun r => (contribOf r).1)).sum := by
    apply List.sum_nonneg
    intro x hx
    rcases List.mem_map.mp hx with ⟨r, _, rfl⟩
    exact (contrib_comp_nonneg r).1
  have hs2 : 0 ≤ (l.map (fun r => (contribOf r).2.1)).sum := by
    apply List.sum_nonneg
    intro x hx
    rcases List.mem_map.mp hx with ⟨r, _, rfl⟩
    exact (contrib_comp_nonneg r).2.1
  have hs3 : 0 ≤ (l.map (fun r => (contribOf r).2.2.1)).sum := by
    apply List.sum_nonneg
    intro x hx
    rcases List.mem_map.mp hx with ⟨r, _, rfl⟩
    exact (contrib_comp_nonneg r).2.2.1
  have hs4 : 0 ≤ (l.map (fun r => (contribOf r).2.2.2)).sum := by
    apply List.sum_nonneg
    intro x hx
    rcases List.mem_map.mp hx with ⟨r, _, rfl⟩
    exact (contrib_comp_nonneg r).2.2.2
  rw [estimate_nutrition_eq]
  exact ⟨truncToInt_nonneg _ hs1, round1_nonneg _ hs2, round1_nonneg _ hs3,
    round1_nonneg _ hs4, rfl, rfl, rfl, rfl⟩

/-- Witness for claim C7 at a concrete list. -/
theorem claim_C7_witness : 0 ≤ (estimate_nutrition ["chicken", "kale"]).calories :=
  (claim_C7 ["chicken", "kale"]).1

/-- Claim C8: synthesize is deterministic: two invocations on the identical
raw input that both succeed produce identical title, description,
ingredients, steps, time, nutrition and image URL (the embedding is a pure
function of the raw string alone, with no randomness or clock input). -/
theorem claim_C8 : ∀ (raw : String) (r1 r2 : RecipeModel),
    synthesize raw = Except.ok r1 → synthesize raw = Except.ok r2 →
    r1.title = r2.title ∧ r1.description = r2.description
  ∧ r1.ingredients = r2.ingredients ∧ r1.steps = r2.steps
  ∧ r1.time_minutes = r2.time_minutes ∧ r1.nutrition = r2.nutrition
  ∧ r1.image_url = r2.image_url := by
  intro raw r1 r2 h1 h2
  have h : r1 = r2 := Except.ok.inj (h1.symm.trans h2)
  subst h
  exact ⟨rfl, rfl, rfl, rfl, rfl, rfl, rfl⟩

/-- Witness for claim C8 at the concrete input kale. -/
theorem claim_C8_witness :
    kaleRecipe.title = kaleRecipe.title
  ∧ kaleRecipe.description = kaleRecipe.description
  ∧ kaleRecipe.ingredients = kaleRecipe.ingredients
  ∧ kaleRecipe.steps = kaleRecipe.steps
  ∧ kaleRecipe.time_minutes = kaleRecipe.time_minutes
  ∧ kaleRecipe.nutrition = kaleRecipe.nutrition
  ∧ kaleRecipe.image_url = kaleRecipe.image_url :=
  claim_C8 "kale" kaleRecipe kaleRecipe synth_kale synth_kale

/-- Claim C9: the request model requires the raw string to have length at
least 2, so every raw input of length 0 or 1 is rejected by model validation
before the parser runs, and the empty-list validation error of the handler is
never reached for those inputs. -/
theorem claim_C9 : ∀ raw : String, raw.length ≤ 1 →
    generate_recipe raw = Except.error RequestError.modelValidation
  ∧ generate_recipe raw ≠ Except.error RequestError.validationError := by
  intro raw h
  have hlt : raw.length < 2 := by omega
  have hgen : generate_recipe raw = Except.error RequestError.modelValidation := by
    unfold generate_recipe
    rw [if_pos hlt]
  refine ⟨hgen, ?_⟩
  rw [hgen]
  intro he
  exact RequestError.noConfusion (Except.error.inj he)

/-- Witness for claim C9: the empty string, a lone space and the one-letter
ingredient are all rejected by model validation. -/
theorem claim_C9_witness :
    (generate_recipe "" = Except.error RequestError.modelValidation
      ∧ generate_recipe "" ≠ Except.error RequestError.validationError)
  ∧ (generate_recipe " " = Except.error RequestError.modelValidation
      ∧ generate_recipe " " ≠ Except.error RequestError.validationError)
  ∧ (generate_recipe "a" = Except.error RequestError.modelValidation
      ∧ generate_recipe "a" ≠ Except.error RequestError.validationError) :=
  ⟨claim_C9 "" (by decide), claim_C9 " " (by decide), claim_C9 "a" (by decide)⟩

/-- Claim C10: every successful synthesis carries exactly the Unsplash
template URL with the first at most three parsed ingredients joined by a
plus sign; the joined query is never empty, so the food substitute query is
unreachable, and the full URL is never empty, so the fallback image constant
is unreachable. -/
theorem claim_C10 : ∀ (raw : String) (r : RecipeModel),
    synthesize raw = Except.ok r →
    r.image_url = some ("https://source.unsplash.com/featured/?"
        ++ pyJoin "+" ((parseIngredients raw).take 3))
  ∧ pyJoin "+" ((parseIngredients raw).take 3) ≠ ""
  ∧ "https://source.unsplash.com/featured/?"
        ++ pyJoin "+" ((parseIngredients raw).take 3) ≠ "" := by
  intro raw r hok
  have hne : parseIngredients raw ≠ [] := by
    intro h
    rw [synthesize_eq, if_pos h] at hok
    exact Except.noConfusion hok
  have htake_ne : (parseIngredients raw).take 3 ≠ [] := by
    cases hp : parseIngredients raw with
    | nil => exact absurd hp hne
    | cons a as => simp
  have hmem : ∀ x ∈ (parseIngredients raw).take 3, x ≠ "" :=
    fun x hx => parse_mem_ne_empty raw x (List.mem_of_mem_take hx)
  have hjoin : pyJoin "+" ((parseIngredients raw).take 3) ≠ "" :=
    pyJoin_ne_empty _ _ htake_ne hmem
  have hurl : "https://source.unsplash.com/featured/?"
      ++ pyJoin "+" ((parseIngredients raw).take 3) ≠ "" :=
    append_ne_empty_left _ _ (by decide)
  refine ⟨?_, hjoin, hurl⟩
  rw [synthesize_eq, if_neg hne] at hok
  have hr : r = assembleRecipe (parseIngredients raw) := (Except.ok.inj hok).symm
  subst hr
  show some (if _ = "" then FALLBACK_IMAGE else _) = _
  simp only [if_neg hjoin, if_neg hurl]

/-- Witness for claim C10 at the concrete input chicken, rice. -/
theorem claim_C10_witness :
    chickenRiceRecipe.image_url = some ("https://source.unsplash.com/featured/?"
        ++ pyJoin "+" ((parseIngredients "chicken, rice").take 3))
  ∧ pyJoin "+" ((parseIngredients "chicken, rice").take 3) ≠ ""
  ∧ "https://source.unsplash.com/featured/?"
        ++ pyJoin "+" ((parseIngredients "chicken, rice").take 3) ≠ "" :=
  claim_C10 "chicken, rice" chickenRiceRecipe synth_chicken_rice

end FlareChef
